import Mathlib

/-!
GarageDoorController: door status, occupancy and open-duration alerts.

A shallow embedding of `GarageDoorController/src/main.cpp` (PC-RGC firmware V2.0).
Global variables are gathered in the record `Globals`; every function of the
firmware becomes a function on `Globals` that also returns the list of visible
effects (`Event`) it performs, in program order.  Values the firmware reads from
the hardware (the closed contact, the ultrasonic echo time, the millisecond
clock) are arguments.  `Serial.print` debugging output is left out.
-/

namespace GarageDoorController

/-! ## Constants (main.cpp lines 28-37) -/

/-- Period of the monitoring timer, milliseconds (line 28). -/
def kMeasuurementFrequency : Nat := 5000

/-- Length of one notification interval, milliseconds (line 29). -/
def kFiveMins : Nat := 300000

/-- Milliseconds the activation relay is held HIGH (line 30). -/
def kButtonDuration : Nat := 1000

/-- Door threshold in cm (line 36). -/
def kDoorThreshold : Int := 25

/-- Floor threshold in cm (line 37). -/
def kFloorThreshold : Int := 180

/-- Width of `long` / `unsigned long` on the ESP8266: 32 bits. -/
def kWord : Nat := 2 ^ 32

/-! ## Effects -/

/-- Output pins the modelled functions write to. -/
inductive Pin where
  | kActivatePin
  | kTrigPin
deriving DecidableEq, Repr

/-- Argument of `Blynk.virtualWrite`: a string or an integer. -/
inductive Param where
  | str (s : String)
  | int (i : Int)
deriving DecidableEq, Repr

/-- Visible effects.  `notify none` stands for a `Blynk.notify` call whose
argument points outside the string literal it was computed from (undefined
behaviour in C++). -/
inductive Event where
  | digitalWrite (pin : Pin) (high : Bool)
  | delay (ms : Nat)
  | delayMicroseconds (us : Nat)
  | virtualWrite (vpin : Nat) (value : Param)
  | notify (msg : Option String)
deriving DecidableEq, Repr

/-! ## Global state (lines 40-46) -/

/-- The global variables of the firmware. -/
structure Globals where
  ObjectDistance : Int
  DoorStatusCode : Int
  DoorOpenedTime : Int
  NewButtonPress : Bool
  InitialisationComplete : Bool
  IntervalCount : Int
  Occupancy : String
deriving DecidableEq, Repr

/-- Values of the globals at boot (lines 40-46). -/
def bootGlobals : Globals :=
  { ObjectDistance := 0, DoorStatusCode := 0, DoorOpenedTime := 0, NewButtonPress := false,
    InitialisationComplete := false, IntervalCount := 0, Occupancy := "" }

/-- The table `DoorStatus[]` of display labels (lines 62-71). -/
def DoorStatus : List String :=
  [ "*** UNKNOWN - ASSUME OPEN ***", "OPEN", "CLOSED", "CLOSING", "OPENING",
    "STOPPED WHILE CLOSING", "STOPPED WHILE OPENING", "INITIALISING" ]

/-- The element `DoorStatus[code]`; the firmware only ever indexes with 0..7. -/
def DoorStatusLabel (code : Int) : String :=
  DoorStatus.getD code.toNat ""

/-! Names of the status codes, from the comments of the table. -/

/-- Status code 0. -/
abbrev Unknown : Int := 0
/-- Status code 1. -/
abbrev Open : Int := 1
/-- Status code 2. -/
abbrev Closed : Int := 2
/-- Status code 3. -/
abbrev Closing : Int := 3
/-- Status code 4. -/
abbrev Opening : Int := 4
/-- Status code 5. -/
abbrev StoppedWhileClosing : Int := 5
/-- Status code 6. -/
abbrev StoppedWhileOpening : Int := 6
/-- Status code 7. -/
abbrev Initialising : Int := 7

/-! ## Machine arithmetic and C strings -/

/-- Conversion of an `unsigned long` value to `long` (two's complement, 32 bit). -/
def toLong (u : Nat) : Int :=
  if u % kWord < 2 ^ 31 then ((u % kWord : Nat) : Int) else ((u % kWord : Nat) : Int) - (kWord : Int)

/-- The value of `millis() - DoorOpenedTime`: the `long` operand is converted to
`unsigned long` and the subtraction wraps modulo 2^32. -/
def elapsedMillis (millis : Nat) (DoorOpenedTime : Int) : Int :=
  (((millis % kWord : Nat) : Int) - DoorOpenedTime) % (kWord : Int)

/-- The string literal of line 280. -/
def kOpenText : String := "Minutes The Garage Door Has Now Been Open = "

/-- The string literal of line 288. -/
def kClosedText : String := "The Garage Door Has Now Been Closed"

/-- The C expression `lit + k` for a string literal `lit` and an `int` k, read as a
NUL-terminated string: pointer arithmetic, so the result is the literal with its
first `k` characters skipped.  Offsets outside the literal (before its start, or
past its terminating NUL) give no defined string. -/
def literalPlus (lit : String) (k : Int) : Option String :=
  if 0 ≤ k ∧ k ≤ (lit.length : Int) then some (String.mk (lit.data.drop k.toNat)) else none

/-! ## Functions -/

/-- `ActivateDoor` (lines 86-92): pulse the activation relay. -/
def ActivateDoor : List Event :=
  [ .digitalWrite .kActivatePin true, .delay kButtonDuration,
    .virtualWrite 0 (.int 0), .digitalWrite .kActivatePin false ]

/-- `CalcDistance` (lines 314-340).  `echo` is the value returned by
`pulseIn(kEchoPin, HIGH)` in microseconds; `echo / 58.0` converted to `int`
truncates, which for a 32-bit echo time is the integer quotient. -/
def CalcDistance (echo : Nat) (g : Globals) : Globals × List Event :=
  ( { g with ObjectDistance := ((echo / 58 : Nat) : Int) },
    [ .digitalWrite .kTrigPin false, .delayMicroseconds 2, .digitalWrite .kTrigPin true,
      .delayMicroseconds 10, .digitalWrite .kTrigPin false ] )

/-- The switch of lines 236-255 on `CurrentDoorStatus`; `old` is the value
`DoorStatusCode` keeps when no case applies. -/
def DetermineDoorStatus.switch (CurrentDoorStatus old : Int) : Int :=
  if CurrentDoorStatus = 1 then 3
  else if CurrentDoorStatus = 2 then 4
  else if CurrentDoorStatus = 3 then 5
  else if CurrentDoorStatus = 4 then 6
  else if CurrentDoorStatus = 5 then 4
  else if CurrentDoorStatus = 6 then 3
  else old

/-- Lines 209-262 of `DetermineDoorStatus`: the new status code and button flag.
`closedPin` is `digitalRead(kClosedPin) == HIGH`; on every path exactly one of the
reads of the pin decides the control flow. -/
def DetermineDoorStatus.position (CurrentDoorStatus : Int) (closedPin : Bool) (g : Globals) :
    Globals :=
  if g.ObjectDistance < kDoorThreshold ∨ closedPin = true then
    if g.ObjectDistance < kDoorThreshold ∧ closedPin = true then
      { g with DoorStatusCode := 0 }
    else if g.ObjectDistance < kDoorThreshold then
      { g with DoorStatusCode := 1 }
    else
      { g with DoorStatusCode := 2 }
  else if g.NewButtonPress = true then
    { g with DoorStatusCode := DetermineDoorStatus.switch CurrentDoorStatus g.DoorStatusCode,
             NewButtonPress := false }
  else if CurrentDoorStatus = 1 ∨ CurrentDoorStatus = 2 then
    { g with DoorStatusCode := 0 }
  else g

/-- Lines 271-291 of `DetermineDoorStatus`: the open-duration notifications.
`millis` is the value of `millis()`. -/
def DetermineDoorStatus.alert (millis : Nat) (g : Globals) : Globals × List Event :=
  if g.DoorStatusCode ≠ 2 then
    if g.DoorOpenedTime = 0 then
      ({ g with DoorOpenedTime := toLong millis, IntervalCount := 0 }, [])
    else
      let CurrentInterval : Int := elapsedMillis millis g.DoorOpenedTime / (kFiveMins : Int)
      if CurrentInterval > g.IntervalCount then
        ({ g with IntervalCount := CurrentInterval },
          [.notify (literalPlus kOpenText (CurrentInterval * 5))])
      else (g, [])
  else
    if g.IntervalCount > 0 then
      ({ g with DoorOpenedTime := 0, IntervalCount := 0 }, [.notify (some kClosedText)])
    else ({ g with DoorOpenedTime := 0 }, [])

/-- `DetermineDoorStatus` (lines 207-292). -/
def DetermineDoorStatus (CurrentDoorStatus : Int) (closedPin : Bool) (millis : Nat)
    (g : Globals) : Globals × List Event :=
  let g1 := DetermineDoorStatus.position CurrentDoorStatus closedPin g
  let r := DetermineDoorStatus.alert millis g1
  (r.1, Event.virtualWrite 1 (.str (DoorStatusLabel g1.DoorStatusCode)) :: r.2)

/-- `DetermineOccupancy` (lines 295-311). -/
def DetermineOccupancy (CurrentDoorStatus : Int) (g : Globals) : Globals × List Event :=
  let Occupancy : String :=
    if CurrentDoorStatus ≠ 1 then
      if g.ObjectDistance > kDoorThreshold ∧ g.ObjectDistance < kFloorThreshold then
        "VEHICLE PRESENT"
      else "GARAGE VACANT"
    else " "
  ({ g with Occupancy := Occupancy },
    [.virtualWrite 2 (.str Occupancy), .virtualWrite 5 (.int g.ObjectDistance)])

/-- One pass of the polling loop of `InitialiseDoor`: the echo time measured by
`CalcDistance` and the contact read by the loop condition. -/
structure Poll where
  echo : Nat
  closedPin : Bool
deriving DecidableEq, Repr

/-- The do-while loop of `InitialiseDoor` (lines 193-201) over the readings still
to come.  The result holds the globals, the effects and the readings not
consumed; `none` when the readings end before the contact reads closed. -/
def InitialiseDoor.loop : List Poll → Globals → Option (Globals × List Event × List Poll)
  | [], _ => none
  | p :: ps, g =>
    let r := CalcDistance p.echo g
    let e := Event.delay 5000 :: r.2 ++
      (if r.1.ObjectDistance < kDoorThreshold then ActivateDoor else [])
    if p.closedPin = true then some (r.1, e, ps)
    else
      match InitialiseDoor.loop ps r.1 with
      | none => none
      | some (g2, e2, rest) => some (g2, e ++ e2, rest)

/-- The four display writes at the start of `InitialiseDoor` (lines 182-185). -/
def initialiseDisplay : List Event :=
  [ .virtualWrite 1 (.str "INITIALISING"), .virtualWrite 2 (.str " "),
    .virtualWrite 5 (.str " "), .virtualWrite 3 (.str "V2.0") ]

/-- `InitialiseDoor` (lines 180-204).  `closedPin0` is the contact read by line 187,
`polls` the readings of the polling loop. -/
def InitialiseDoor (closedPin0 : Bool) (polls : List Poll) (g : Globals) :
    Option (Globals × List Event × List Poll) :=
  if closedPin0 = false then
    match InitialiseDoor.loop polls { g with DoorStatusCode := 7 } with
    | none => none
    | some (g1, e1, rest) =>
      some ({ g1 with DoorStatusCode := 2 }, initialiseDisplay ++ ActivateDoor ++ e1, rest)
  else some ({ g with DoorStatusCode := 2 }, initialiseDisplay, polls)

/-- Hardware readings of one monitoring pass after initialisation. -/
structure Tick where
  echo : Nat
  closedPin : Bool
  millis : Nat
deriving DecidableEq, Repr

/-- Lines 174-176 of `MonitorDoor`: measure, update the status, update occupancy. -/
def MonitorDoor.body (t : Tick) (g : Globals) : Globals × List Event :=
  let r1 := CalcDistance t.echo g
  let r2 := DetermineDoorStatus r1.1.DoorStatusCode t.closedPin t.millis r1.1
  let r3 := DetermineOccupancy r2.1.DoorStatusCode r2.1
  (r3.1, r1.2 ++ r2.2 ++ r3.2)

/-- `MonitorDoor` (lines 167-177).  `closedPin0` and `polls` are the readings
`InitialiseDoor` consumes when it runs. -/
def MonitorDoor (closedPin0 : Bool) (polls : List Poll) (t : Tick) (g : Globals) :
    Option (Globals × List Event) :=
  if g.InitialisationComplete = false then
    match InitialiseDoor closedPin0 polls g with
    | none => none
    | some (g1, e1, _) =>
      let r := MonitorDoor.body t { g1 with InitialisationComplete := true }
      some (r.1, e1 ++ r.2)
  else some (MonitorDoor.body t g)

/-- `BLYNK_WRITE(V0)` (lines 76-83).  `param` is `param.asInt()`. -/
def BLYNK_WRITE_V0 (param : Int) (closedPin0 : Bool) (polls : List Poll) (t : Tick)
    (g : Globals) : Option (Globals × List Event) :=
  if param = 1 ∧ g.NewButtonPress = false then
    match MonitorDoor closedPin0 polls t { g with NewButtonPress := true } with
    | none => none
    | some (g1, e1) => some (g1, ActivateDoor ++ e1)
  else some (g, [])

/-- The monitoring timer firing once per element of a list of readings, after
initialisation: the globals and the effects of each pass. -/
def runTicks : Globals → List Tick → List (Globals × List Event)
  | _, [] => []
  | g, t :: ts => MonitorDoor.body t g :: runTicks (MonitorDoor.body t g).1 ts

/-! ## Reference definitions, following the specification (sections 4.1, 4.4) -/

/-- Spatial zones of the specification. -/
inductive DistanceZone where
  | NearDoor
  | MidRange
  | Floor
deriving DecidableEq, Repr

/-- Occupancy values of the specification. -/
inductive OccupancyKind where
  | Unspecified
  | VehiclePresent
  | Vacant
deriving DecidableEq, Repr

/-- The classifier as the specification words it: below the door threshold is
`NearDoor`, from the door threshold up to below the floor threshold is `MidRange`,
otherwise `Floor`. -/
def classifySpec (door_threshold_cm floor_threshold_cm distance_cm : Int) : DistanceZone :=
  if distance_cm < door_threshold_cm then .NearDoor
  else if distance_cm < floor_threshold_cm then .MidRange
  else .Floor

/-- The occupancy estimator as the specification words it. -/
def occupancySpec (status : Int) (zone : DistanceZone) : OccupancyKind :=
  if status = Open then .Unspecified
  else if zone = .MidRange then .VehiclePresent
  else .Vacant

/-- Display text of an occupancy value (the three strings of lines 297-302). -/
def OccupancyKind.label : OccupancyKind → String
  | .Unspecified => " "
  | .VehiclePresent => "VEHICLE PRESENT"
  | .Vacant => "GARAGE VACANT"

/-- The reference occupancy of the specification with thresholds 25 and 180. -/
def occupancyReference (status distance_cm : Int) : String :=
  (occupancySpec status (classifySpec 25 180 distance_cm)).label

/-! ## Observations on effect lists -/

/-- Recognises a `Blynk.notify` call. -/
def isNotify : Event → Bool
  | .notify _ => true
  | _ => false

/-- The `Blynk.notify` calls among a list of effects. -/
def notifications (es : List Event) : List Event :=
  es.filter isNotify

/-- Recognises the rising edge of an actuator pulse. -/
def isPulse : Event → Bool
  | .digitalWrite .kActivatePin true => true
  | _ => false

/-- Number of actuator pulses among a list of effects. -/
def pulseCount (es : List Event) : Nat :=
  es.countP isPulse

/-- Readings taken by the monitoring timer at `t0`, `t0 + 5000`, `t0 + 10000`, ... -/
def spacedTicks (t0 : Nat) : List Poll → List Tick
  | [] => []
  | p :: ps => { echo := p.echo, closedPin := p.closedPin, millis := t0 } ::
      spacedTicks (t0 + kMeasuurementFrequency) ps

/-- The globals of a monitoring pass after the status part of `DetermineDoorStatus`
(lines 209-262) and before its notification part. -/
def afterPosition (t : Tick) (g : Globals) : Globals :=
  DetermineDoorStatus.position g.DoorStatusCode t.closedPin (CalcDistance t.echo g).1

/-- Total number of `Blynk.notify` calls over a run of monitoring passes. -/
def notificationCount (tr : List (Globals × List Event)) : Nat :=
  (tr.map (fun r => (notifications r.2).length)).sum

/-- The values of `IntervalCount` left by the passes of a run that notified. -/
def notifiedCounts (tr : List (Globals × List Event)) : List Int :=
  (tr.filter (fun r => !(notifications r.2).isEmpty)).map (fun r => r.1.IntervalCount)

/-- A poll of `InitialiseDoor` whose measured distance is below the door threshold
(the test of line 196). -/
def pollNearDoor (q : Poll) : Bool :=
  decide (((q.echo / 58 : Nat) : Int) < kDoorThreshold)

/-- The globals left by a run of monitoring passes. -/
def endState : Globals → List Tick → Globals
  | g, [] => g
  | g, t :: ts => endState (MonitorDoor.body t g).1 ts

/-! ## Basic facts -/

theorem alert_preserves (millis : Nat) (g : Globals) :
    (DetermineDoorStatus.alert millis g).1.DoorStatusCode = g.DoorStatusCode ∧
    (DetermineDoorStatus.alert millis g).1.NewButtonPress = g.NewButtonPress ∧
    (DetermineDoorStatus.alert millis g).1.ObjectDistance = g.ObjectDistance := by
  unfold DetermineDoorStatus.alert
  dsimp only
  split_ifs <;> simp

theorem DetermineDoorStatus_status (cur : Int) (c : Bool) (millis : Nat) (g : Globals) :
    (DetermineDoorStatus cur c millis g).1.DoorStatusCode =
      (DetermineDoorStatus.position cur c g).DoorStatusCode := by
  simp [DetermineDoorStatus, alert_preserves]

theorem DetermineDoorStatus_button (cur : Int) (c : Bool) (millis : Nat) (g : Globals) :
    (DetermineDoorStatus cur c millis g).1.NewButtonPress =
      (DetermineDoorStatus.position cur c g).NewButtonPress := by
  simp [DetermineDoorStatus, alert_preserves]

/-! ## Door status -/

/-- C1: when a sensor asserts a terminal position (distance below 25 cm or contact
closed), the new status is decided by the two sensors alone, whatever the previous
status and the button flag: both give Unknown, contact only gives Closed,
distance only gives Open. -/
theorem DetermineDoorStatus_terminal (cur : Int) (closedPin : Bool) (millis : Nat) (g : Globals)
    (h : g.ObjectDistance < 25 ∨ closedPin = true) :
    (DetermineDoorStatus cur closedPin millis g).1.DoorStatusCode =
      if g.ObjectDistance < 25 ∧ closedPin = true then Unknown
      else if closedPin = true then Closed
      else Open := by
  rw [DetermineDoorStatus_status]
  unfold DetermineDoorStatus.position kDoorThreshold
  rcases h with h | h
  · by_cases hc : closedPin = true <;> simp [h, hc]
  · by_cases hd : g.ObjectDistance < 25 <;> simp [h, hd]

theorem DetermineDoorStatus_terminal_witness :
    (DetermineDoorStatus Opening true 0 { bootGlobals with ObjectDistance := 200 }).1.DoorStatusCode
      = Closed := by
  have h := DetermineDoorStatus_terminal Opening true 0 { bootGlobals with ObjectDistance := 200 }
    (Or.inr rfl)
  simpa using h

/-- C2: with neither sensor asserting a terminal position (distance at least 25 cm,
contact not closed) and a button request pending, the previous status is mapped
Open to Closing, Closed to Opening, StoppedWhileClosing to Opening and
StoppedWhileOpening to Closing, and the button request is cleared. -/
theorem DetermineDoorStatus_direction_table (cur : Int) (millis : Nat) (g : Globals)
    (hd : 25 ≤ g.ObjectDistance) (hb : g.NewButtonPress = true) :
    ((cur = Open → (DetermineDoorStatus cur false millis g).1.DoorStatusCode = Closing) ∧
     (cur = Closed → (DetermineDoorStatus cur false millis g).1.DoorStatusCode = Opening) ∧
     (cur = StoppedWhileClosing →
        (DetermineDoorStatus cur false millis g).1.DoorStatusCode = Opening) ∧
     (cur = StoppedWhileOpening →
        (DetermineDoorStatus cur false millis g).1.DoorStatusCode = Closing)) ∧
    (DetermineDoorStatus cur false millis g).1.NewButtonPress = false := by
  have hnd : ¬ g.ObjectDistance < 25 := not_lt.mpr hd
  rw [DetermineDoorStatus_status, DetermineDoorStatus_button]
  unfold DetermineDoorStatus.position kDoorThreshold
  simp only [hnd, hb, false_or, Bool.false_eq_true, if_false, if_true]
  refine ⟨⟨?_, ?_, ?_, ?_⟩, trivial⟩ <;> intro h <;> subst h <;>
    simp [DetermineDoorStatus.switch]

theorem DetermineDoorStatus_direction_table_witness :
    (DetermineDoorStatus Closed false 0
        { bootGlobals with ObjectDistance := 200, DoorStatusCode := 2,
                           NewButtonPress := true }).1.DoorStatusCode = Opening ∧
    (DetermineDoorStatus Closed false 0
        { bootGlobals with ObjectDistance := 200, DoorStatusCode := 2,
                           NewButtonPress := true }).1.NewButtonPress = false :=
  have h := DetermineDoorStatus_direction_table Closed 0
    { bootGlobals with ObjectDistance := 200, DoorStatusCode := 2, NewButtonPress := true }
    (by decide) rfl
  ⟨h.1.2.1 rfl, h.2⟩

/-- C3: with neither sensor asserting a terminal position and no button request
pending, a previous status of Open or Closed becomes Unknown, and a previous
status of Opening, Closing, StoppedWhileClosing or StoppedWhileOpening is kept.
A monitoring pass reading 200 cm with the contact open turns Closed into Unknown
without a button request and into Opening with one. -/
theorem DetermineDoorStatus_no_button (cur : Int) (millis : Nat) (g : Globals)
    (hcur : g.DoorStatusCode = cur) (hd : 25 ≤ g.ObjectDistance)
    (hb : g.NewButtonPress = false) :
    ((cur = Open ∨ cur = Closed) →
        (DetermineDoorStatus cur false millis g).1.DoorStatusCode = Unknown) ∧
    ((cur = Opening ∨ cur = Closing ∨ cur = StoppedWhileClosing ∨ cur = StoppedWhileOpening) →
        (DetermineDoorStatus cur false millis g).1.DoorStatusCode = cur) ∧
    (∀ (t : Tick) (g0 : Globals), t.echo / 58 = 200 → t.closedPin = false →
        g0.DoorStatusCode = Closed →
        (MonitorDoor.body t { g0 with NewButtonPress := false }).1.DoorStatusCode = Unknown ∧
        (MonitorDoor.body t { g0 with NewButtonPress := true }).1.DoorStatusCode = Opening) := by
  have hnd : ¬ g.ObjectDistance < 25 := not_lt.mpr hd
  rw [DetermineDoorStatus_status]
  refine ⟨?_, ?_, ?_⟩
  · intro h
    unfold DetermineDoorStatus.position kDoorThreshold
    simp [hnd, hb, h]
  · intro h
    unfold DetermineDoorStatus.position kDoorThreshold
    rcases h with h | h | h | h <;> subst h <;> simp [hnd, hb, hcur]
  · intro t g0 he hc hs
    simp [MonitorDoor.body, DetermineOccupancy, CalcDistance, DetermineDoorStatus_status,
      DetermineDoorStatus.position, DetermineDoorStatus.switch, kDoorThreshold, he, hc, hs]

theorem DetermineDoorStatus_no_button_witness :
    (DetermineDoorStatus Closing false 0
        { bootGlobals with ObjectDistance := 100, DoorStatusCode := 3 }).1.DoorStatusCode
      = Closing :=
  (DetermineDoorStatus_no_button Closing 0
    { bootGlobals with ObjectDistance := 100, DoorStatusCode := 3 } rfl (by decide) rfl).2.1
    (Or.inr (Or.inl rfl))

/-- C10: with neither sensor asserting a terminal position and a button request
pending, Closing becomes StoppedWhileClosing, Opening becomes StoppedWhileOpening,
Unknown and Initialising stay as they are, and the request is cleared.  A
monitoring pass enters a Stopped state only that way: from Closing (resp. Opening)
with a request pending and no sensor at a terminal position. -/
theorem DetermineDoorStatus_stopped_rows (cur : Int) (millis : Nat) (g : Globals)
    (hcur : g.DoorStatusCode = cur) (hd : 25 ≤ g.ObjectDistance)
    (hb : g.NewButtonPress = true) :
    (cur = Closing →
        (DetermineDoorStatus cur false millis g).1.DoorStatusCode = StoppedWhileClosing) ∧
    (cur = Opening →
        (DetermineDoorStatus cur false millis g).1.DoorStatusCode = StoppedWhileOpening) ∧
    ((cur = Unknown ∨ cur = Initialising) →
        (DetermineDoorStatus cur false millis g).1.DoorStatusCode = cur) ∧
    (DetermineDoorStatus cur false millis g).1.NewButtonPress = false ∧
    (∀ (t : Tick) (g0 : Globals),
        ((MonitorDoor.body t g0).1.DoorStatusCode = StoppedWhileClosing →
          g0.DoorStatusCode ≠ StoppedWhileClosing →
          g0.DoorStatusCode = Closing ∧ g0.NewButtonPress = true ∧
            25 ≤ ((t.echo / 58 : Nat) : Int) ∧ t.closedPin = false) ∧
        ((MonitorDoor.body t g0).1.DoorStatusCode = StoppedWhileOpening →
          g0.DoorStatusCode ≠ StoppedWhileOpening →
          g0.DoorStatusCode = Opening ∧ g0.NewButtonPress = true ∧
            25 ≤ ((t.echo / 58 : Nat) : Int) ∧ t.closedPin = false)) := by
  have hnd : ¬ g.ObjectDistance < 25 := not_lt.mpr hd
  rw [DetermineDoorStatus_status, DetermineDoorStatus_button]
  unfold DetermineDoorStatus.position kDoorThreshold
  simp only [hnd, hb, false_or, Bool.false_eq_true, if_false, if_true]
  refine ⟨?_, ?_, ?_, trivial, ?_⟩
  · intro h; subst h; simp [DetermineDoorStatus.switch]
  · intro h; subst h; simp [DetermineDoorStatus.switch]
  · intro h
    rcases h with h | h <;> subst h <;> simp [DetermineDoorStatus.switch, hcur]
  · intro t g0
    simp only [MonitorDoor.body, DetermineOccupancy, CalcDistance, DetermineDoorStatus_status,
      DetermineDoorStatus.position, DetermineDoorStatus.switch, kDoorThreshold]
    constructor <;> intro h hne <;> split_ifs at h <;> simp_all

theorem DetermineDoorStatus_stopped_rows_witness :
    (DetermineDoorStatus Closing false 0
        { bootGlobals with ObjectDistance := 100, DoorStatusCode := 3,
                           NewButtonPress := true }).1.DoorStatusCode
      = StoppedWhileClosing :=
  (DetermineDoorStatus_stopped_rows Closing 0
    { bootGlobals with ObjectDistance := 100, DoorStatusCode := 3, NewButtonPress := true }
    rfl (by decide) rfl).1 rfl

/-! ## Occupancy -/

theorem DetermineOccupancy_off_boundary (status : Int) (g : Globals)
    (h : g.ObjectDistance ≠ 25) :
    (DetermineOccupancy status g).1.Occupancy = occupancyReference status g.ObjectDistance := by
  unfold DetermineOccupancy occupancyReference occupancySpec classifySpec kDoorThreshold
    kFloorThreshold
  by_cases hs : status = 1
  · simp [hs, OccupancyKind.label]
  · by_cases h1 : g.ObjectDistance < 25
    · have h2 : ¬ 25 < g.ObjectDistance := by omega
      simp [hs, h1, h2, OccupancyKind.label]
    · have h2 : 25 < g.ObjectDistance := by omega
      by_cases h3 : g.ObjectDistance < 180 <;> simp [hs, h1, h2, h3, OccupancyKind.label]

/-- C4: at the boundary distance of exactly 25 cm with the door Closed,
`DetermineOccupancy` reports "GARAGE VACANT", while the reference definition
(25 <= d < 180 is MidRange, hence VehiclePresent) gives "VEHICLE PRESENT". -/
theorem DetermineOccupancy_boundary_25 :
    (DetermineOccupancy Closed { bootGlobals with ObjectDistance := 25 }).1.Occupancy
        = "GARAGE VACANT" ∧
    (DetermineOccupancy Closed { bootGlobals with ObjectDistance := 25 }).2
        = [.virtualWrite 2 (.str "GARAGE VACANT"), .virtualWrite 5 (.int 25)] ∧
    occupancyReference Closed 25 = "VEHICLE PRESENT" := by
  refine ⟨?_, ?_, ?_⟩
  · simp [DetermineOccupancy, bootGlobals, kDoorThreshold]
  · simp [DetermineOccupancy, bootGlobals, kDoorThreshold]
  · simp [occupancyReference, occupancySpec, classifySpec, OccupancyKind.label]

/-! ## Notification text -/

theorem literalPlus_kOpenText_length (k : Int) (s : String)
    (h : literalPlus kOpenText k = some s) : (s.length : Int) = 44 - k := by
  unfold literalPlus at h
  have hl : kOpenText.length = 44 := by decide
  split_ifs at h with hk
  · simp only [Option.some.injEq] at h
    subst h
    have : (kOpenText.data).length = 44 := hl
    simp only [String.length, List.length_drop, this]
    rw [hl] at hk
    omega

theorem literalPlus_ne_claimed_text (n : Int) (hn : 1 ≤ n) :
    literalPlus kOpenText (n * 5) ≠ some (kOpenText ++ toString (n * 5)) := by
  intro h
  have hl := literalPlus_kOpenText_length _ _ h
  have h44 : kOpenText.length = 44 := by decide
  rw [String.length_append, h44] at hl
  push_cast at hl
  omega

/-- C7: an open-too-long notification for one elapsed interval (door Open since
1000 ms, clock at 301000 ms) carries the text of the literal with its first five
characters skipped, "es The Garage Door Has Now Been Open = ", and not the literal
followed by the number of minutes "5". -/
theorem DetermineDoorStatus_notify_text_one_interval :
    (DetermineDoorStatus Open false 301000
        { bootGlobals with ObjectDistance := 10, DoorStatusCode := 1,
                           DoorOpenedTime := 1000 }).2
      = [.virtualWrite 1 (.str "OPEN"),
         .notify (some "es The Garage Door Has Now Been Open = ")] ∧
    (DetermineDoorStatus Open false 301000
        { bootGlobals with ObjectDistance := 10, DoorStatusCode := 1,
                           DoorOpenedTime := 1000 }).1.IntervalCount = 1 ∧
    kOpenText ++ toString ((1 : Int) * 5) = "Minutes The Garage Door Has Now Been Open = 5" ∧
    "es The Garage Door Has Now Been Open = " ≠ kOpenText ++ toString ((1 : Int) * 5) := by
  refine ⟨?_, ?_, ?_, ?_⟩
  · decide
  · decide
  · decide
  · decide

/-! ## Monitoring passes -/

theorem position_preserves (cur : Int) (c : Bool) (g : Globals) :
    (DetermineDoorStatus.position cur c g).IntervalCount = g.IntervalCount ∧
    (DetermineDoorStatus.position cur c g).DoorOpenedTime = g.DoorOpenedTime ∧
    (DetermineDoorStatus.position cur c g).ObjectDistance = g.ObjectDistance := by
  unfold DetermineDoorStatus.position
  split_ifs <;> simp

theorem afterPosition_tracker (t : Tick) (g : Globals) :
    (afterPosition t g).IntervalCount = g.IntervalCount ∧
    (afterPosition t g).DoorOpenedTime = g.DoorOpenedTime := by
  unfold afterPosition
  have h := position_preserves g.DoorStatusCode t.closedPin (CalcDistance t.echo g).1
  exact ⟨by rw [h.1]; rfl, by rw [h.2.1]; rfl⟩

theorem alert_events_notify (millis : Nat) (g : Globals) :
    notifications (DetermineDoorStatus.alert millis g).2 = (DetermineDoorStatus.alert millis g).2 := by
  unfold DetermineDoorStatus.alert notifications
  dsimp only
  split_ifs <;> simp [isNotify]

theorem body_state (t : Tick) (g : Globals) :
    (MonitorDoor.body t g).1 =
      { (DetermineDoorStatus.alert t.millis (afterPosition t g)).1 with
        Occupancy := (DetermineOccupancy
          (DetermineDoorStatus.alert t.millis (afterPosition t g)).1.DoorStatusCode
          (DetermineDoorStatus.alert t.millis (afterPosition t g)).1).1.Occupancy } := by
  simp [MonitorDoor.body, DetermineDoorStatus, DetermineOccupancy, afterPosition, CalcDistance]

theorem body_status (t : Tick) (g : Globals) :
    (MonitorDoor.body t g).1.DoorStatusCode = (afterPosition t g).DoorStatusCode := by
  rw [body_state]
  exact (alert_preserves t.millis (afterPosition t g)).1

theorem body_notifications (t : Tick) (g : Globals) :
    notifications (MonitorDoor.body t g).2 =
      (DetermineDoorStatus.alert t.millis (afterPosition t g)).2 := by
  have h := alert_events_notify t.millis (afterPosition t g)
  unfold notifications at h ⊢
  simp only [MonitorDoor.body, DetermineDoorStatus, DetermineOccupancy, CalcDistance,
    List.filter_append, List.filter_cons, List.filter_nil, isNotify]
  simpa [afterPosition, CalcDistance] using h

theorem body_tracker (t : Tick) (g : Globals) :
    (MonitorDoor.body t g).1.IntervalCount =
      (DetermineDoorStatus.alert t.millis (afterPosition t g)).1.IntervalCount ∧
    (MonitorDoor.body t g).1.DoorOpenedTime =
      (DetermineDoorStatus.alert t.millis (afterPosition t g)).1.DoorOpenedTime := by
  rw [body_state]
  exact ⟨rfl, rfl⟩

theorem alert_closed (millis : Nat) (g : Globals) (h : g.DoorStatusCode = 2) :
    (DetermineDoorStatus.alert millis g).2 =
      (if 0 < g.IntervalCount then [.notify (some kClosedText)] else []) ∧
    (DetermineDoorStatus.alert millis g).1.IntervalCount ≤ 0 ∧
    (DetermineDoorStatus.alert millis g).1.DoorOpenedTime = 0 := by
  unfold DetermineDoorStatus.alert
  by_cases hi : 0 < g.IntervalCount
  · simp [h, hi]
  · simp [h, hi]
    omega

theorem alert_open_first (millis : Nat) (g : Globals) (h : g.DoorStatusCode ≠ 2)
    (h0 : g.DoorOpenedTime = 0) :
    (DetermineDoorStatus.alert millis g).2 = [] ∧
    (DetermineDoorStatus.alert millis g).1.IntervalCount = 0 ∧
    (DetermineDoorStatus.alert millis g).1.DoorOpenedTime = toLong millis := by
  unfold DetermineDoorStatus.alert
  simp [h, h0]

theorem alert_open_next (millis : Nat) (g : Globals) (h : g.DoorStatusCode ≠ 2)
    (h0 : g.DoorOpenedTime ≠ 0) :
    (DetermineDoorStatus.alert millis g).1.DoorOpenedTime = g.DoorOpenedTime ∧
    ((g.IntervalCount < elapsedMillis millis g.DoorOpenedTime / (kFiveMins : Int) ∧
      (DetermineDoorStatus.alert millis g).1.IntervalCount =
        elapsedMillis millis g.DoorOpenedTime / (kFiveMins : Int) ∧
      (DetermineDoorStatus.alert millis g).2 =
        [.notify (literalPlus kOpenText
          (elapsedMillis millis g.DoorOpenedTime / (kFiveMins : Int) * 5))]) ∨
     (elapsedMillis millis g.DoorOpenedTime / (kFiveMins : Int) ≤ g.IntervalCount ∧
      (DetermineDoorStatus.alert millis g).1.IntervalCount = g.IntervalCount ∧
      (DetermineDoorStatus.alert millis g).2 = [])) := by
  unfold DetermineDoorStatus.alert
  by_cases hi : g.IntervalCount < elapsedMillis millis g.DoorOpenedTime / (kFiveMins : Int)
  · simp [h, h0, hi]
  · simp [h, h0, hi]
    omega

theorem toLong_ne_zero (t0 : Nat) (h0 : 0 < t0) (h1 : t0 < 2 ^ 32) : toLong t0 ≠ 0 := by
  unfold toLong kWord
  have hm : t0 % 2 ^ 32 = t0 := Nat.mod_eq_of_lt h1
  rw [hm]
  split_ifs <;> push_cast <;> omega

theorem elapsedMillis_toLong (m t0 : Nat) (h0 : t0 ≤ m) (h1 : m < 2 ^ 32) :
    elapsedMillis m (toLong t0) = ((m - t0 : Nat) : Int) := by
  unfold elapsedMillis toLong kWord
  have hm : m % 2 ^ 32 = m := Nat.mod_eq_of_lt h1
  have ht : t0 % 2 ^ 32 = t0 := Nat.mod_eq_of_lt (lt_of_le_of_lt h0 h1)
  rw [hm, ht]
  split_ifs <;> push_cast <;> omega

/-! ## The door-closed notification -/

theorem closed_pass (t : Tick) (g : Globals)
    (h : (MonitorDoor.body t g).1.DoorStatusCode = Closed) :
    notifications (MonitorDoor.body t g).2 =
      (if 0 < g.IntervalCount then [.notify (some kClosedText)] else []) ∧
    (MonitorDoor.body t g).1.IntervalCount ≤ 0 := by
  rw [body_status] at h
  have ha := alert_closed t.millis (afterPosition t g) h
  rw [body_notifications, (body_tracker t g).1, ha.1, (afterPosition_tracker t g).1]
  exact ⟨rfl, ha.2.1⟩

theorem BLYNK_WRITE_V0_pending (param : Int) (c0 : Bool) (polls : List Poll) (t : Tick)
    (g : Globals) (h : g.NewButtonPress = true) :
    BLYNK_WRITE_V0 param c0 polls t g = some (g, []) := by
  simp [BLYNK_WRITE_V0, h]

theorem BLYNK_WRITE_V0_accepted (c0 : Bool) (polls : List Poll) (t : Tick)
    (g : Globals) (h : g.NewButtonPress = false) :
    BLYNK_WRITE_V0 1 c0 polls t g =
      (MonitorDoor c0 polls t { g with NewButtonPress := true }).map
        (fun r => (r.1, ActivateDoor ++ r.2)) := by
  unfold BLYNK_WRITE_V0
  simp only [h, and_self, if_true]
  cases MonitorDoor c0 polls t { g with NewButtonPress := true } <;> rfl

/-- C8 (as amended): a button request pending when `DetermineDoorStatus` runs is
consumed by that pass exactly when neither sensor asserts a terminal position
(distance at least 25 cm and contact not closed); the V0 handler then accepts the
next activation command (it pulses the actuator and runs a monitoring pass).
When a sensor asserts a terminal position the request stays pending and the V0
handler ignores every later command. -/
theorem button_request_consumed_when_transient (cur : Int) (closedPin : Bool) (millis : Nat)
    (g : Globals) (hb : g.NewButtonPress = true) :
    ((25 ≤ g.ObjectDistance ∧ closedPin = false) →
      (DetermineDoorStatus cur closedPin millis g).1.NewButtonPress = false ∧
      ∀ (c0 : Bool) (polls : List Poll) (t : Tick),
        BLYNK_WRITE_V0 1 c0 polls t (DetermineDoorStatus cur closedPin millis g).1 =
          (MonitorDoor c0 polls t
            { (DetermineDoorStatus cur closedPin millis g).1 with NewButtonPress := true }).map
            (fun r => (r.1, ActivateDoor ++ r.2))) ∧
    ((g.ObjectDistance < 25 ∨ closedPin = true) →
      (DetermineDoorStatus cur closedPin millis g).1.NewButtonPress = true ∧
      ∀ (param : Int) (c0 : Bool) (polls : List Poll) (t : Tick),
        BLYNK_WRITE_V0 param c0 polls t (DetermineDoorStatus cur closedPin millis g).1 =
          some ((DetermineDoorStatus cur closedPin millis g).1, [])) := by
  constructor
  · rintro ⟨hd, hc⟩
    have hnd : ¬ g.ObjectDistance < 25 := not_lt.mpr hd
    have hf : (DetermineDoorStatus cur closedPin millis g).1.NewButtonPress = false := by
      rw [DetermineDoorStatus_button]
      unfold DetermineDoorStatus.position kDoorThreshold
      simp [hnd, hc, hb]
    exact ⟨hf, fun c0 polls t => BLYNK_WRITE_V0_accepted c0 polls t _ hf⟩
  · intro h
    have ht : (DetermineDoorStatus cur closedPin millis g).1.NewButtonPress = true := by
      rw [DetermineDoorStatus_button]
      unfold DetermineDoorStatus.position kDoorThreshold
      rw [if_pos h]
      split_ifs <;> exact hb
    exact ⟨ht, fun param c0 polls t => BLYNK_WRITE_V0_pending param c0 polls t _ ht⟩

theorem button_request_consumed_when_transient_witness :
    (DetermineDoorStatus Closed false 0
        { bootGlobals with ObjectDistance := 200, DoorStatusCode := 2,
                           NewButtonPress := true }).1.NewButtonPress = false :=
  ((button_request_consumed_when_transient Closed false 0
    { bootGlobals with ObjectDistance := 200, DoorStatusCode := 2, NewButtonPress := true }
    rfl).1 ⟨by decide, rfl⟩).1

/-- C8 (counterexample): with the door Closed (contact closed, 200 cm) and a button
request pending, `DetermineDoorStatus` leaves the request pending, and the V0
handler then ignores an activation command. -/
theorem button_request_kept_at_terminal :
    (DetermineDoorStatus Closed true 1000
        { bootGlobals with ObjectDistance := 200, DoorStatusCode := 2, NewButtonPress := true,
                           InitialisationComplete := true }).1.NewButtonPress = true ∧
    BLYNK_WRITE_V0 1 true [] { echo := 11600, closedPin := true, millis := 6000 }
        (DetermineDoorStatus Closed true 1000
          { bootGlobals with ObjectDistance := 200, DoorStatusCode := 2, NewButtonPress := true,
                             InitialisationComplete := true }).1
      = some ((DetermineDoorStatus Closed true 1000
          { bootGlobals with ObjectDistance := 200, DoorStatusCode := 2, NewButtonPress := true,
                             InitialisationComplete := true }).1, []) := by
  decide

/-! ## Open episodes -/

theorem open_first_pass (t : Tick) (g : Globals)
    (hs : (MonitorDoor.body t g).1.DoorStatusCode ≠ Closed) (h0 : g.DoorOpenedTime = 0) :
    notifications (MonitorDoor.body t g).2 = [] ∧
    (MonitorDoor.body t g).1.IntervalCount = 0 ∧
    (MonitorDoor.body t g).1.DoorOpenedTime = toLong t.millis := by
  rw [body_status] at hs
  have ha := alert_open_first t.millis (afterPosition t g) hs
    ((afterPosition_tracker t g).2.trans h0)
  rw [body_notifications, (body_tracker t g).1, (body_tracker t g).2]
  exact ha

theorem open_next_pass (t : Tick) (g : Globals) (t0 k : Nat)
    (hs : (MonitorDoor.body t g).1.DoorStatusCode ≠ Closed)
    (hopened : g.DoorOpenedTime = toLong t0) (ht0 : 0 < t0)
    (hm : t.millis = t0 + k * kMeasuurementFrequency) (hov : t.millis < 2 ^ 32)
    (hk : 1 ≤ k) (hic : g.IntervalCount = (((k - 1) / 60 : Nat) : Int)) :
    (MonitorDoor.body t g).1.DoorOpenedTime = toLong t0 ∧
    (MonitorDoor.body t g).1.IntervalCount = ((k / 60 : Nat) : Int) ∧
    (((k - 1) / 60 = k / 60 ∧ notifications (MonitorDoor.body t g).2 = []) ∨
     ((k - 1) / 60 < k / 60 ∧ notifications (MonitorDoor.body t g).2 =
        [.notify (literalPlus kOpenText ((MonitorDoor.body t g).1.IntervalCount * 5))])) := by
  rw [body_status] at hs
  have hlt : t0 < 2 ^ 32 := by omega
  have hne : (afterPosition t g).DoorOpenedTime ≠ 0 := by
    rw [(afterPosition_tracker t g).2, hopened]
    exact toLong_ne_zero t0 ht0 hlt
  have ha := alert_open_next t.millis (afterPosition t g) hs hne
  have he : elapsedMillis t.millis (afterPosition t g).DoorOpenedTime / (kFiveMins : Int)
      = ((k / 60 : Nat) : Int) := by
    rw [(afterPosition_tracker t g).2, hopened, elapsedMillis_toLong t.millis t0 (by omega) hov]
    unfold kMeasuurementFrequency at hm
    unfold kFiveMins
    rw [hm]
    push_cast
    omega
  rw [he, (afterPosition_tracker t g).1, (afterPosition_tracker t g).2, hopened, hic] at ha
  rw [body_notifications, (body_tracker t g).1, (body_tracker t g).2]
  refine ⟨ha.1, ?_, ?_⟩
  · rcases ha.2 with ⟨h1, h2, _⟩ | ⟨h1, h2, _⟩
    · exact h2
    · rw [h2]
      have : (k - 1) / 60 ≤ k / 60 := Nat.div_le_div_right (Nat.sub_le k 1)
      omega
  · rcases ha.2 with ⟨h1, h2, h3⟩ | ⟨h1, h2, h3⟩
    · right
      refine ⟨by omega, ?_⟩
      rw [h3, h2]
    · left
      have : (k - 1) / 60 ≤ k / 60 := Nat.div_le_div_right (Nat.sub_le k 1)
      exact ⟨by omega, h3⟩

theorem open_episode_steady (rs : List Poll) :
    ∀ (k t0 : Nat) (g : Globals), 1 ≤ k → 0 < t0 →
      g.DoorOpenedTime = toLong t0 → g.IntervalCount = (((k - 1) / 60 : Nat) : Int) →
      t0 + (k + rs.length) * kMeasuurementFrequency < 2 ^ 32 + kMeasuurementFrequency →
      (∀ r ∈ runTicks g (spacedTicks (t0 + k * kMeasuurementFrequency) rs),
        r.1.DoorStatusCode ≠ Closed) →
      notificationCount (runTicks g (spacedTicks (t0 + k * kMeasuurementFrequency) rs))
          + (k - 1) / 60 = (k + rs.length - 1) / 60 ∧
      (∀ r ∈ runTicks g (spacedTicks (t0 + k * kMeasuurementFrequency) rs),
        notifications r.2 = [] ∨
        notifications r.2 = [.notify (literalPlus kOpenText (r.1.IntervalCount * 5))]) ∧
      (∀ x ∈ notifiedCounts (runTicks g (spacedTicks (t0 + k * kMeasuurementFrequency) rs)),
        (((k - 1) / 60 : Nat) : Int) < x) ∧
      List.Pairwise (fun a b => a < b)
        (notifiedCounts (runTicks g (spacedTicks (t0 + k * kMeasuurementFrequency) rs))) := by
  induction rs with
  | nil =>
    intro k t0 g _ _ _ _ _ _
    simp [spacedTicks, runTicks, notificationCount, notifiedCounts]
  | cons p ps ih =>
    intro k t0 g hk ht0 hopened hic hov hall
    have hstep : t0 + k * kMeasuurementFrequency + kMeasuurementFrequency
        = t0 + (k + 1) * kMeasuurementFrequency := by ring
    simp only [spacedTicks, runTicks, hstep, List.mem_cons, List.length_cons] at hall hov ⊢
    have hfreq : kMeasuurementFrequency = 5000 := rfl
    have h1 := open_next_pass
      { echo := p.echo, closedPin := p.closedPin, millis := t0 + k * kMeasuurementFrequency }
      g t0 k (hall _ (Or.inl rfl)) hopened ht0 rfl (by simp only [hfreq] at hov ⊢; omega) hk hic
    have h2 := ih (k + 1) t0 _ (by omega) ht0 h1.1 (by simpa using h1.2.1)
      (by simp only [hfreq] at hov ⊢; omega) (fun x hx => hall x (Or.inr hx))
    obtain ⟨hcount, hshape, hgt, hpw⟩ := h2
    simp only [Nat.add_sub_cancel] at hcount hgt
    have hmono : (k - 1) / 60 ≤ k / 60 := Nat.div_le_div_right (Nat.sub_le k 1)
    refine ⟨?_, ?_, ?_, ?_⟩
    · have hlen : k + (ps.length + 1) - 1 = k + 1 + ps.length - 1 := by omega
      rw [hlen, ← hcount]
      simp only [notificationCount, List.map_cons, List.sum_cons] at hcount ⊢
      rcases h1.2.2 with ⟨he, hn⟩ | ⟨hl, hn⟩
      · rw [hn]; simp; omega
      · rw [hn]
        have : k / 60 ≤ (k - 1) / 60 + 1 := by omega
        simp; omega
    · intro r hr
      rcases hr with hr | hr
      · subst hr
        rcases h1.2.2 with ⟨_, hn⟩ | ⟨_, hn⟩
        · exact Or.inl hn
        · exact Or.inr hn
      · exact hshape r hr
    · intro x hx
      rcases h1.2.2 with ⟨he, hn⟩ | ⟨hl, hn⟩
      · simp only [notifiedCounts, List.filter_cons, hn, List.isEmpty_nil, Bool.not_true,
          Bool.false_eq_true, if_false] at hx
        have := hgt x hx
        omega
      · simp only [notifiedCounts, List.filter_cons, hn, List.isEmpty_cons, Bool.not_false,
          if_true, List.map_cons, List.mem_cons] at hx
        rcases hx with hx | hx
        · rw [hx, h1.2.1]; omega
        · have := hgt x hx
          omega
    · rcases h1.2.2 with ⟨he, hn⟩ | ⟨hl, hn⟩
      · simpa only [notifiedCounts, List.filter_cons, hn, List.isEmpty_nil, Bool.not_true,
          Bool.false_eq_true, if_false] using hpw
      · simp only [notifiedCounts, List.filter_cons, hn, List.isEmpty_cons, Bool.not_false,
          if_true, List.map_cons, List.pairwise_cons]
        refine ⟨?_, hpw⟩
        intro x hx
        rw [h1.2.1]
        exact hgt x hx

theorem open_episode_summary (t0 : Nat) (rs : List Poll) (g : Globals)
    (hT : 1 ≤ rs.length) (ht0 : 0 < t0)
    (hov : t0 + (rs.length - 1) * kMeasuurementFrequency < 2 ^ 32)
    (hreset : g.DoorOpenedTime = 0 ∧ g.IntervalCount = 0)
    (hopen : ∀ r ∈ runTicks g (spacedTicks t0 rs), r.1.DoorStatusCode ≠ Closed) :
    notificationCount (runTicks g (spacedTicks t0 rs))
      = (rs.length - 1) * kMeasuurementFrequency / kFiveMins ∧
    (∀ r ∈ runTicks g (spacedTicks t0 rs),
      notifications r.2 = [] ∨
      notifications r.2 = [.notify (literalPlus kOpenText (r.1.IntervalCount * 5))]) ∧
    List.Pairwise (fun a b => a < b) (notifiedCounts (runTicks g (spacedTicks t0 rs))) := by
  cases rs with
  | nil => simp at hT
  | cons p ps =>
    have hfreq : kMeasuurementFrequency = 5000 := rfl
    have hfive : kFiveMins = 300000 := rfl
    have hstep : t0 + kMeasuurementFrequency = t0 + 1 * kMeasuurementFrequency := by ring
    simp only [spacedTicks, runTicks, List.mem_cons, List.length_cons, Nat.add_sub_cancel,
      hstep] at hopen hov ⊢
    have h1 := open_first_pass
      { echo := p.echo, closedPin := p.closedPin, millis := t0 } g (hopen _ (Or.inl rfl))
      hreset.1
    have h2 := open_episode_steady ps 1 t0 _ le_rfl ht0 h1.2.2 (by simpa using h1.2.1)
      (by simp only [hfreq] at hov ⊢; omega) (fun x hx => hopen x (Or.inr hx))
    obtain ⟨hcount, hshape, _, hpw⟩ := h2
    refine ⟨?_, ?_, ?_⟩
    · simp only [notificationCount, List.map_cons, List.sum_cons, h1.1, List.length_nil,
        zero_add] at hcount ⊢
      have hdiv : ps.length * kMeasuurementFrequency / kFiveMins = ps.length / 60 := by
        rw [hfreq, hfive]
        omega
      rw [hdiv]
      omega
    · intro r hr
      rcases hr with hr | hr
      · subst hr
        exact Or.inl h1.1
      · exact hshape r hr
    · simpa only [notifiedCounts, List.filter_cons, h1.1, List.isEmpty_nil, Bool.not_true,
        Bool.false_eq_true, if_false] using hpw

theorem contact_open_not_closed (t : Tick) (g : Globals) (h : t.closedPin = false) :
    (MonitorDoor.body t g).1.DoorStatusCode ≠ Closed := by
  rw [body_status]
  unfold afterPosition DetermineDoorStatus.position DetermineDoorStatus.switch
  simp only [h, Bool.false_eq_true, or_false, and_false, if_false]
  split_ifs <;> simp_all [CalcDistance]

theorem contact_open_episode (rs : List Poll) (hrs : ∀ p ∈ rs, p.closedPin = false) :
    ∀ (t0 : Nat) (g : Globals),
      ∀ r ∈ runTicks g (spacedTicks t0 rs), r.1.DoorStatusCode ≠ Closed := by
  induction rs with
  | nil => intro t0 g r hr; simp [spacedTicks, runTicks] at hr
  | cons p ps ih =>
    intro t0 g r hr
    simp only [spacedTicks, runTicks, List.mem_cons] at hr
    rcases hr with hr | hr
    · subst hr
      exact contact_open_not_closed _ g (hrs p (List.mem_cons_self _ _))
    · exact ih (fun q hq => hrs q (List.mem_cons_of_mem _ hq)) _ _ r hr

/-- C6 (as amended): over an open episode of T >= 1 consecutive passes with status
not Closed, 5000 ms apart, starting from a reset tracker at a positive time
without clock overflow, the number of notifications equals
floor((T - 1) * 5000 / 300000): the clock starts at the first pass of the episode.
Every pass emits at most one notification, each is the open-too-long
notification computed from the pass's interval count, and the interval counts of
successive notifications are strictly increasing. -/
theorem open_episode_notifications (t0 : Nat) (rs : List Poll) (g : Globals)
    (hT : 1 ≤ rs.length) (ht0 : 0 < t0)
    (hov : t0 + (rs.length - 1) * kMeasuurementFrequency < 2 ^ 32)
    (hreset : g.DoorOpenedTime = 0 ∧ g.IntervalCount = 0)
    (hopen : ∀ r ∈ runTicks g (spacedTicks t0 rs), r.1.DoorStatusCode ≠ Closed) :
    notificationCount (runTicks g (spacedTicks t0 rs))
      = (rs.length - 1) * kMeasuurementFrequency / kFiveMins ∧
    (∀ r ∈ runTicks g (spacedTicks t0 rs), (notifications r.2).length ≤ 1) ∧
    (∀ r ∈ runTicks g (spacedTicks t0 rs),
      notifications r.2 = [] ∨
      notifications r.2 = [.notify (literalPlus kOpenText (r.1.IntervalCount * 5))]) ∧
    List.Pairwise (fun a b => a < b) (notifiedCounts (runTicks g (spacedTicks t0 rs))) := by
  obtain ⟨h1, h2, h3⟩ := open_episode_summary t0 rs g hT ht0 hov hreset hopen
  refine ⟨h1, ?_, h2, h3⟩
  intro r hr
  rcases h2 r hr with h | h <;> simp [h]

theorem open_episode_notifications_witness :
    notificationCount (runTicks { bootGlobals with DoorStatusCode := 2 }
        (spacedTicks 1000 (List.replicate 121 { echo := 580, closedPin := false })))
      = 2 :=
  (open_episode_notifications 1000 (List.replicate 121 { echo := 580, closedPin := false })
    { bootGlobals with DoorStatusCode := 2 } (by simp) (by decide)
    (by simp [kMeasuurementFrequency]) ⟨rfl, rfl⟩
    (contact_open_episode _ (by simp) _ _)).1.trans
    (by simp [kMeasuurementFrequency, kFiveMins])

/-- C6 (counterexample): an open episode of T = 60 passes (5000 ms apart from
1000 ms, reset tracker) emits no notification, while floor(60 * 5000 / 300000)
is 1. -/
theorem open_episode_sixty_passes :
    (∀ r ∈ runTicks { bootGlobals with DoorStatusCode := 2 }
        (spacedTicks 1000 (List.replicate 60 { echo := 580, closedPin := false })),
      r.1.DoorStatusCode ≠ Closed) ∧
    notificationCount (runTicks { bootGlobals with DoorStatusCode := 2 }
        (spacedTicks 1000 (List.replicate 60 { echo := 580, closedPin := false }))) = 0 ∧
    60 * kMeasuurementFrequency / kFiveMins = 1 := by
  refine ⟨contact_open_episode _ (by simp) _ _, ?_, by decide⟩
  exact (open_episode_summary 1000 (List.replicate 60 { echo := 580, closedPin := false })
    { bootGlobals with DoorStatusCode := 2 } (by simp) (by decide)
    (by simp [kMeasuurementFrequency]) ⟨rfl, rfl⟩
    (contact_open_episode _ (by simp) _ _)).1.trans
    (by simp [kMeasuurementFrequency, kFiveMins])

/-! ## Initialisation -/

theorem pulseCount_append (a b : List Event) :
    pulseCount (a ++ b) = pulseCount a + pulseCount b := by
  simp [pulseCount, List.countP_append]

theorem pulseCount_ActivateDoor : pulseCount ActivateDoor = 1 := by
  decide

theorem pulseCount_poll (p : Poll) (g : Globals) :
    pulseCount (Event.delay 5000 :: (CalcDistance p.echo g).2 ++
      (if (CalcDistance p.echo g).1.ObjectDistance < kDoorThreshold then ActivateDoor else []))
      = if pollNearDoor p = true then 1 else 0 := by
  have hc : pulseCount (Event.delay 5000 :: (CalcDistance p.echo g).2) = 0 := by
    simp [pulseCount, CalcDistance, isPulse]
  rw [pulseCount_append, hc]
  by_cases h : ((p.echo / 58 : Nat) : Int) < kDoorThreshold
  · have h2 : pollNearDoor p = true := by
      simp only [pollNearDoor, decide_eq_true_eq]
      exact h
    have h3 : (CalcDistance p.echo g).1.ObjectDistance < kDoorThreshold := h
    rw [if_pos h3, if_pos h2, pulseCount_ActivateDoor]
  · have h2 : ¬ pollNearDoor p = true := by
      simp only [pollNearDoor, decide_eq_true_eq]
      exact h
    have h3 : ¬ (CalcDistance p.echo g).1.ObjectDistance < kDoorThreshold := h
    rw [if_neg h3, if_neg h2]
    rfl

theorem loop_result (polls : List Poll) :
    ∀ (g g1 : Globals) (es : List Event) (rest : List Poll),
      InitialiseDoor.loop polls g = some (g1, es, rest) →
      g1.DoorStatusCode = g.DoorStatusCode ∧
      ∃ (used : List Poll) (p : Poll), polls = used ++ p :: rest ∧
        (∀ q ∈ used, q.closedPin = false) ∧ p.closedPin = true ∧
        pulseCount es = (used ++ [p]).countP pollNearDoor := by
  induction polls with
  | nil => intro g g1 es rest h; simp [InitialiseDoor.loop] at h
  | cons p ps ih =>
    intro g g1 es rest h
    unfold InitialiseDoor.loop at h
    by_cases hp : p.closedPin = true
    · simp only [hp, if_true, Option.some.injEq, Prod.mk.injEq] at h
      obtain ⟨hg, he, hr⟩ := h
      subst hg he hr
      refine ⟨rfl, [], p, rfl, by simp, hp, ?_⟩
      rw [pulseCount_poll]
      by_cases hn : pollNearDoor p = true <;> simp [hn]
    · simp only [hp, if_false, Bool.false_eq_true] at h
      cases hl : InitialiseDoor.loop ps (CalcDistance p.echo g).1 with
      | none => rw [hl] at h; simp at h
      | some r =>
        obtain ⟨g2, e2, rest2⟩ := r
        rw [hl] at h
        simp only [Option.some.injEq, Prod.mk.injEq] at h
        obtain ⟨hg, he, hr⟩ := h
        subst hg he hr
        obtain ⟨hs, used, q, hsplit, hused, hq, hcount⟩ := ih _ _ _ _ hl
        refine ⟨hs, p :: used, q, by rw [hsplit]; rfl, ?_, hq, ?_⟩
        · intro x hx
          rcases List.mem_cons.mp hx with hx | hx
          · subst hx; simpa using hp
          · exact hused x hx
        · rw [pulseCount_append, pulseCount_poll, hcount, List.cons_append, List.countP_cons]
          omega

theorem loop_returns (polls : List Poll) :
    ∀ g : Globals,
      (InitialiseDoor.loop polls g).isSome = true ↔ ∃ q ∈ polls, q.closedPin = true := by
  induction polls with
  | nil => intro g; simp [InitialiseDoor.loop]
  | cons p ps ih =>
    intro g
    unfold InitialiseDoor.loop
    by_cases hp : p.closedPin = true
    · simp [hp]
    · have hf : p.closedPin = false := by simpa using hp
      have h := ih (CalcDistance p.echo g).1
      cases hl : InitialiseDoor.loop ps (CalcDistance p.echo g).1 with
      | none =>
        rw [hl] at h
        simp only [hf, Bool.false_eq_true, if_false, hl, Option.isSome_none, false_iff,
          List.mem_cons, not_exists, not_and] at h ⊢
        intro q hq
        rcases hq with hq | hq
        · subst hq; simp [hf]
        · exact h q hq
      | some r =>
        rw [hl] at h
        obtain ⟨q, hq, hc⟩ := h.mp rfl
        simp only [hf, Bool.false_eq_true, if_false, hl, Option.isSome_some, true_iff]
        exact ⟨q, List.mem_cons_of_mem _ hq, hc⟩

/-- C9: `InitialiseDoor` returns exactly when the contact reads closed at the start
or at some poll.  When it returns the status is Closed.  With the contact closed
at the start no pulse is issued and no poll is made.  Otherwise the polls made
are those up to and including the first one with the contact closed (the contact
was open at every earlier one), and the effects are the display writes, one pulse,
then the polling effects holding one further pulse per poll made whose distance
is below 25 cm. -/
theorem InitialiseDoor_closes (closedPin0 : Bool) (polls : List Poll) (g : Globals) :
    ((InitialiseDoor closedPin0 polls g).isSome = true ↔
      (closedPin0 = true ∨ ∃ q ∈ polls, q.closedPin = true)) ∧
    (∀ (g1 : Globals) (es : List Event) (rest : List Poll),
      InitialiseDoor closedPin0 polls g = some (g1, es, rest) →
      g1.DoorStatusCode = Closed ∧
      (closedPin0 = true → pulseCount es = 0 ∧ rest = polls) ∧
      (closedPin0 = false →
        ∃ (used : List Poll) (p : Poll) (e1 : List Event),
          polls = used ++ p :: rest ∧
          (∀ q ∈ used, q.closedPin = false) ∧ p.closedPin = true ∧
          es = initialiseDisplay ++ ActivateDoor ++ e1 ∧
          pulseCount e1 = (used ++ [p]).countP pollNearDoor ∧
          pulseCount es = 1 + (used ++ [p]).countP pollNearDoor)) := by
  cases closedPin0 with
  | true =>
    refine ⟨by simp [InitialiseDoor], ?_⟩
    intro g1 es rest h
    simp only [InitialiseDoor, Bool.true_eq_false, if_false, Option.some.injEq,
      Prod.mk.injEq] at h
    obtain ⟨hg, he, hr⟩ := h
    subst hg he hr
    exact ⟨rfl, fun _ => ⟨by decide, rfl⟩, fun hc => by simp at hc⟩
  | false =>
    have hret := loop_returns polls { g with DoorStatusCode := 7 }
    constructor
    · simp only [InitialiseDoor, if_true, Bool.false_eq_true, false_or]
      rw [← hret]
      cases InitialiseDoor.loop polls { g with DoorStatusCode := 7 } <;> simp
    · intro g1 es rest h
      simp only [InitialiseDoor, if_true] at h
      cases hl : InitialiseDoor.loop polls { g with DoorStatusCode := 7 } with
      | none => rw [hl] at h; simp at h
      | some r =>
        obtain ⟨g2, e2, rest2⟩ := r
        rw [hl] at h
        simp only [Option.some.injEq, Prod.mk.injEq] at h
        obtain ⟨hg, he, hr⟩ := h
        subst hg he hr
        obtain ⟨_, used, p, hsplit, hused, hp, hcount⟩ := loop_result polls _ _ _ _ hl
        refine ⟨rfl, fun hc => by simp at hc, fun _ => ⟨used, p, e2, hsplit, hused, hp, rfl,
          hcount, ?_⟩⟩
        have hd : pulseCount initialiseDisplay = 0 := by decide
        rw [pulseCount_append, pulseCount_append, hd, pulseCount_ActivateDoor, hcount]

theorem InitialiseDoor_closes_witness :
    (InitialiseDoor false
        [ { echo := 580, closedPin := false }, { echo := 11600, closedPin := true },
          { echo := 11600, closedPin := false } ] bootGlobals).isSome = true ∧
    ∀ (g1 : Globals) (es : List Event) (rest : List Poll),
      InitialiseDoor false
        [ { echo := 580, closedPin := false }, { echo := 11600, closedPin := true },
          { echo := 11600, closedPin := false } ] bootGlobals = some (g1, es, rest) →
      g1.DoorStatusCode = Closed :=
  have h := InitialiseDoor_closes false
    [ { echo := 580, closedPin := false }, { echo := 11600, closedPin := true },
      { echo := 11600, closedPin := false } ] bootGlobals
  ⟨h.1.mpr (Or.inr ⟨{ echo := 11600, closedPin := true }, by simp, rfl⟩),
    fun g1 es rest hr => (h.2 g1 es rest hr).1⟩

/-! ## Episodes and the door-closed notification -/

theorem closed_pass_reset (t : Tick) (g : Globals)
    (h : (MonitorDoor.body t g).1.DoorStatusCode = Closed) (h0 : 0 ≤ g.IntervalCount) :
    (MonitorDoor.body t g).1.DoorOpenedTime = 0 ∧ (MonitorDoor.body t g).1.IntervalCount = 0 := by
  have hc := closed_pass t g h
  rw [body_status] at h
  have ha := alert_closed t.millis (afterPosition t g) h
  refine ⟨by rw [(body_tracker t g).2]; exact ha.2.2, ?_⟩
  have hle := hc.2
  have hge : 0 ≤ (MonitorDoor.body t g).1.IntervalCount := by
    rw [(body_tracker t g).1]
    unfold DetermineDoorStatus.alert
    rw [(afterPosition_tracker t g).1]
    simp only [h, ne_eq, not_true_eq_false, if_false]
    split_ifs
    · exact le_refl 0
    · exact h0
  omega

theorem open_pass_tracker (t : Tick) (g : Globals)
    (hs : (MonitorDoor.body t g).1.DoorStatusCode ≠ Closed)
    (h1 : g.DoorOpenedTime = 0 → g.IntervalCount = 0) :
    g.IntervalCount ≤ (MonitorDoor.body t g).1.IntervalCount ∧
    ((MonitorDoor.body t g).1.DoorOpenedTime = 0 → (MonitorDoor.body t g).1.IntervalCount = 0) ∧
    (notifications (MonitorDoor.body t g).2).length =
      (if g.IntervalCount < (MonitorDoor.body t g).1.IntervalCount then 1 else 0) := by
  by_cases hz : g.DoorOpenedTime = 0
  · obtain ⟨hn, hi, _⟩ := open_first_pass t g hs hz
    rw [hn, hi, h1 hz]
    simp
  · rw [body_status] at hs
    have hne : (afterPosition t g).DoorOpenedTime ≠ 0 := by
      rw [(afterPosition_tracker t g).2]; exact hz
    have ha := alert_open_next t.millis (afterPosition t g) hs hne
    rw [(afterPosition_tracker t g).1, (afterPosition_tracker t g).2] at ha
    rw [body_notifications, (body_tracker t g).1, (body_tracker t g).2]
    refine ⟨?_, ?_, ?_⟩
    · rcases ha.2 with ⟨hlt, he, _⟩ | ⟨_, he, _⟩
      · rw [he]; omega
      · rw [he]
    · intro hd
      rw [ha.1] at hd
      exact absurd hd hz
    · rcases ha.2 with ⟨hlt, he, hn⟩ | ⟨_, he, hn⟩
      · rw [he, hn, if_pos hlt]; rfl
      · rw [he, hn, if_neg (lt_irrefl _)]; rfl

theorem endState_cons (g : Globals) (t : Tick) (ts : List Tick) :
    endState g (t :: ts) = endState (MonitorDoor.body t g).1 ts := rfl

theorem pass_invariant (t : Tick) (g : Globals) (h0 : 0 ≤ g.IntervalCount)
    (h1 : g.DoorOpenedTime = 0 → g.IntervalCount = 0) :
    0 ≤ (MonitorDoor.body t g).1.IntervalCount ∧
    ((MonitorDoor.body t g).1.DoorOpenedTime = 0 → (MonitorDoor.body t g).1.IntervalCount = 0) := by
  by_cases hs : (MonitorDoor.body t g).1.DoorStatusCode = Closed
  · have h := closed_pass_reset t g hs h0
    exact ⟨by rw [h.2], fun _ => h.2⟩
  · have h := open_pass_tracker t g hs h1
    exact ⟨le_trans h0 h.1, h.2.1⟩

theorem run_invariant (ts : List Tick) :
    ∀ g : Globals, 0 ≤ g.IntervalCount → (g.DoorOpenedTime = 0 → g.IntervalCount = 0) →
      0 ≤ (endState g ts).IntervalCount ∧
      ((endState g ts).DoorOpenedTime = 0 → (endState g ts).IntervalCount = 0) := by
  induction ts with
  | nil => intro g h0 h1; exact ⟨h0, h1⟩
  | cons t ts ih =>
    intro g h0 h1
    have h := pass_invariant t g h0 h1
    rw [endState_cons]
    exact ih _ h.1 h.2

end GarageDoorController
